import Mathlib

/-!
Verification of the MADRID anomaly detector
(`src/aeon/anomaly_detection/_madrid.py`) against its specification.

The Python module is shallowly embedded below:

* the series `X` is a `List ℚ` (a 1-D numeric array);
* integer parameters are `ℤ`; Python `len(range(a, b, s))` and
  `math.ceil` become explicit integer formulas (`rangeLen`, `ceilDiv`),
  valid for positive step/divisor, which is the only way the source
  calls them;
* fallible code returns `Except MadridError _`; each constructor of
  `MadridError` corresponds to one `raise` site (or runtime exception
  site) of the source, and `.ok none` models `_predict` falling off the
  end of its body, i.e. Python returning `None`;
* `np.polyval` is Horner evaluation over `ℚ`, and the float coefficient
  literals of the source are embedded as the exact rationals denoted by
  their decimal notation.
-/

namespace Aeon

/-- Length of Python `range(a, b, s)` for a positive step `s`
(`max 0 (ceil ((b - a) / s))`, via the floor-division identity
`ceil (t / s) = (t + s - 1) / s`). -/
def rangeLen (a b s : ℤ) : ℤ :=
  max 0 ((b - a + s - 1) / s)

/-- Python `math.ceil(a / b)` for integers with `0 < b`
(true division followed by ceiling), via the floor-division identity. -/
def ceilDiv (a b : ℤ) : ℤ :=
  (a + b - 1) / b

/-- Python `np.arange(a, b, s)` on integers, for positive step `s`. -/
def arange (a b s : ℤ) : List ℤ :=
  (List.range (rangeLen a b s).toNat).map (fun k => a + (k : ℤ) * s)

/-- `np.polyval p x`: evaluate the polynomial with coefficient list `p`
(highest degree first) at `x`, by Horner's scheme. -/
def polyval (p : List ℚ) (x : ℚ) : ℚ :=
  p.foldl (fun acc c => acc * x + c) 0

/-- `np.diff X`: differences of consecutive elements. -/
def npDiff (X : List ℚ) : List ℚ :=
  List.zipWith (fun a b => b - a) X X.tail

/-- `np.mean X` (as used inside `np.var`). -/
def npMean (X : List ℚ) : ℚ :=
  X.sum / X.length

/-- `np.var X`: population variance, mean of squared deviations from the
mean. -/
def npVar (X : List ℚ) : ℚ :=
  ((X.map (fun x => (x - npMean X) ^ 2)).sum) / X.length

/-- One constructor per `raise` site (or per runtime exception site) of
the source.  In Python the first four are `ValueError`s; the spec's
error taxonomy names them `ConfigurationError` (`stepSize...` and
`factorEstimate...`), `DataTooShortError` and `DegenerateRegionError`.
`typeErrorEstimateCall` is the `TypeError` raised by the call
`self._estimate_processing_time(self, len_x)` (a bound method invoked
with an extra positional `self`); `negativeDimensionsError` is the
`ValueError` raised by `np.full` on a negative row count;
`indexErrorMSet` is the `IndexError` raised by `m_set[m_pointer]` when
the pointer is out of bounds. -/
inductive MadridError where
  | stepSizeConfigurationError
  | factorEstimateConfigurationError
  | dataTooShortError
  | degenerateRegionError
  | typeErrorEstimateCall
  | negativeDimensionsError
  | indexErrorMSet
  deriving DecidableEq, Repr

/-- The detector's per-instance state: the four configuration
attributes set by `MADRID.__init__`. -/
structure MADRID where
  min_length : ℤ
  max_length : ℤ
  step_size : ℤ
  split_psn : ℤ
  deriving DecidableEq, Repr

/-- `MADRID.__init__(min_length, max_length, step_size=1, split_psn=None)`:
raises `ValueError` when `step_size <= 0`; stores `split_psn` when it is
truthy (for an integer: nonzero), otherwise defaults it to
`max_length + 1`. -/
def MADRID.init (min_length max_length step_size : ℤ)
    (split_psn : Option ℤ) : Except MadridError MADRID :=
  if step_size ≤ 0 then
    Except.error MadridError.stepSizeConfigurationError
  else
    Except.ok
      { min_length := min_length
        max_length := max_length
        step_size := step_size
        split_psn :=
          match split_psn with
          | some s => if s ≠ 0 then s else max_length + 1
          | none => max_length + 1 }

/-- Positions where `np.diff X` is nonzero, shifted by one
(`np.where(np.diff(X) != 0)[0] + 1` in `_contains_constant_regions`). -/
def constantChangePoints (X : List ℚ) : List ℕ :=
  ((List.range (npDiff X).length).filter
    (fun i => decide ((npDiff X).getD i 0 ≠ 0))).map (fun i => i + 1)

/-- `constant_indices`: the change points with the series boundaries
prepended/appended (`np.concatenate(([0], ..., [len(X)]))`). -/
def constant_indices (X : List ℚ) : List ℕ :=
  [0] ++ constantChangePoints X ++ [X.length]

/-- `constant_lengths = np.diff(constant_indices)`: the run lengths
between consecutive change points. -/
def constant_lengths (X : List ℚ) : List ℕ :=
  List.zipWith (fun a b => b - a) (constant_indices X) (constant_indices X).tail

/-- `constant_length = max(constant_lengths)`: the maximal run length of
unchanged consecutive values. -/
def constant_length (X : List ℚ) : ℕ :=
  (constant_lengths X).foldl max 0

/-- `MADRID._contains_constant_regions(X, sub_sequence_length)`: true
when the maximal constant run is at least `sub_sequence_length` or the
variance of `X` is below `0.2`. -/
def MADRID._contains_constant_regions (X : List ℚ)
    (sub_sequence_length : ℤ) : Bool :=
  decide ((constant_length X : ℤ) ≥ sub_sequence_length) ||
    decide (npVar X < 1 / 5)

/-- Python truthiness of the optional integer `factor` argument
(`None` and `0` are falsy). -/
def factorTruthy : Option ℤ → Bool
  | none => false
  | some v => decide (v ≠ 0)

/-- `num_rows = int(np.ceil((max_length + 1 - min_length) / step_size))`
in `_predict`. -/
def MADRID.num_rows (d : MADRID) : ℤ :=
  ceilDiv (d.max_length + 1 - d.min_length) d.step_size

/-- `m_set = np.arange(min_length, max_length + 1, step_size)`
in `_predict`: the Length Set. -/
def MADRID.m_set (d : MADRID) : List ℤ :=
  arange d.min_length (d.max_length + 1) d.step_size

/-- `m_pointer = int(np.ceil(len(m_set) / 2))` in `_predict`
(`(n + 1) / 2` is the ceiling of `n / 2` on naturals). -/
def MADRID.m_pointer (d : MADRID) : ℕ :=
  ((MADRID.m_set d).length + 1) / 2

/-- `MADRID._predict(X, factor=None, estimate_time=False)`.  The guard
checks appear in source order.  After the guards the source only binds
locals (`bfs_seed`, `k`, `time_bf`, the `-inf`-filled discord table,
`bsf`, `bsf_loc`, `m_set`, `m_pointer`, `m`) and then ends, so the
observable outcomes are: the `TypeError` from the mis-called estimator
when `estimate_time` is set, the `ValueError` from `np.full` when
`num_rows` is negative, the `IndexError` from `m_set[m_pointer]` when
the pointer is out of bounds, and otherwise the implicit `return None`
(the anomaly-array construction is commented out), modelled as
`Except.ok none` where `some` would carry the advertised `np.ndarray`. -/
def MADRID._predict (d : MADRID) (X : List ℚ) (factor : Option ℤ)
    (estimate_time : Bool) : Except MadridError (Option (List Bool)) :=
  if estimate_time = true ∧ factorTruthy factor = true then
    Except.error MadridError.factorEstimateConfigurationError
  else if (X.length : ℤ) < d.min_length then
    Except.error MadridError.dataTooShortError
  else if MADRID._contains_constant_regions X d.min_length = true then
    Except.error MadridError.degenerateRegionError
  else if estimate_time = true then
    Except.error MadridError.typeErrorEstimateCall
  else if MADRID.num_rows d < 0 then
    Except.error MadridError.negativeDimensionsError
  else if MADRID.m_pointer d < (MADRID.m_set d).length then
    Except.ok none
  else
    Except.error MadridError.indexErrorMSet

/-- Degree-6 coefficients `p_1` of the small-problem (polynomial)
regime, exact values of the source's decimal literals. -/
def p_1_poly : List ℚ :=
  [-4.66922312132205e-45, 1.54665628995475e-35, -1.29314859463985e-26,
   2.01592418847342e-18, -2.54253065977245e-11, 9.77027495487874e-05,
   -1.27055582771851e-05]

/-- Degree-6 coefficients `p_2` of the small-problem (polynomial)
regime. -/
def p_2_poly : List ℚ :=
  [-3.79100071825804e-42, 3.15547030055575e-33, -6.62877819318290e-25,
   2.59437174380763e-17, -8.10970871564789e-11, 7.25344313152170e-05,
   4.68415490390476e-07]

/-- Linear coefficients `p_1` of the large-problem regime. -/
def p_1_lin : List ℚ := [3.90752957831437e-05, 0]

/-- Linear coefficients `p_2` of the large-problem regime. -/
def p_2_lin : List ℚ := [1.94005690535588e-05, 0]

/-- Fixed linear coefficients `p_4`. -/
def p_4 : List ℚ := [1.26834880558841e-05, 0]

/-- Fixed linear coefficients `p_8`. -/
def p_8 : List ℚ := [1.42210521045333e-05, 0]

/-- Fixed linear coefficients `p_16`. -/
def p_16 : List ℚ := [1.82290885539705e-05, 0]

/-- The scalar problem size the estimator feeds to each cost model:
`len(range(1, len_x - split_psn, factor)) *
 len(range(ceil(min_length / factor), ceil(max_length / factor),
           step_size))`. -/
def MADRID.problemSize (d : MADRID) (len_x factor : ℤ) : ℤ :=
  rangeLen 1 (len_x - d.split_psn) factor *
    rangeLen (ceilDiv d.min_length factor) (ceilDiv d.max_length factor)
      d.step_size

/-- The five local prediction variables of
`MADRID._estimate_processing_time` (the source binds them and then falls
off the end without returning or storing them; they are collected here
so that theorems can speak about them). -/
structure TimeEstimates where
  predicted_execution_time_1 : ℚ
  predicted_execution_time_2 : ℚ
  predicted_execution_time_4 : ℚ
  predicted_execution_time_8 : ℚ
  predicted_execution_time_16 : ℚ
  deriving Repr

/-- `MADRID._estimate_processing_time(len_x)` as it would execute when
invoked with the correct arity: picks the polynomial coefficient sets
for factors 1 and 2 when the factor-1 problem size is below `5000000`
and the linear sets otherwise, then evaluates each factor's model at
that factor's problem size. -/
def MADRID._estimate_processing_time (d : MADRID) (len_x : ℤ) :
    TimeEstimates :=
  let p_1 := if MADRID.problemSize d len_x 1 < 5000000 then p_1_poly else p_1_lin
  let p_2 := if MADRID.problemSize d len_x 1 < 5000000 then p_2_poly else p_2_lin
  { predicted_execution_time_16 :=
      polyval p_16 ((MADRID.problemSize d len_x 16 : ℤ) : ℚ)
    predicted_execution_time_8 :=
      polyval p_8 ((MADRID.problemSize d len_x 8 : ℤ) : ℚ)
    predicted_execution_time_4 :=
      polyval p_4 ((MADRID.problemSize d len_x 4 : ℤ) : ℚ)
    predicted_execution_time_2 :=
      polyval p_2 ((MADRID.problemSize d len_x 2 : ℤ) : ℚ)
    predicted_execution_time_1 :=
      polyval p_1 ((MADRID.problemSize d len_x 1 : ℤ) : ℚ) }

/-- Count of integers of the arithmetic progression starting at `a` with
step `s` that lie in `[a, b)` — the spec's reading of the number of
positions/lengths considered at a downsampling factor. -/
def steppedCount (a b s : ℤ) : ℕ :=
  ((Finset.Ico a b).filter (fun k => (k - a) % s = 0)).card

lemma rangeLen_nonneg (a b s : ℤ) : 0 ≤ rangeLen a b s :=
  le_max_left _ _

lemma lt_rangeLen_iff {s : ℤ} (hs : 0 < s) {a b j : ℤ} (hj : 0 ≤ j) :
    j < rangeLen a b s ↔ a + j * s < b := by
  have hmul : (j + 1) * s = j * s + s := by ring
  have h1 : j < (b - a + s - 1) / s ↔ a + j * s < b := by
    rw [Int.lt_iff_add_one_le, Int.le_ediv_iff_mul_le hs, hmul]
    constructor <;> intro h <;> omega
  rw [rangeLen, lt_max_iff]
  constructor
  · rintro (h | h)
    · omega
    · exact h1.mp h
  · intro h
    exact Or.inr (h1.mpr h)

lemma steppedCount_eq_rangeLen (a b : ℤ) {s : ℤ} (hs : 0 < s) :
    (steppedCount a b s : ℤ) = rangeLen a b s := by
  have himg : (Finset.Ico a b).filter (fun k => (k - a) % s = 0)
      = (Finset.range (rangeLen a b s).toNat).image
          (fun j : ℕ => a + (j : ℤ) * s) := by
    ext k
    simp only [Finset.mem_filter, Finset.mem_Ico, Finset.mem_image,
      Finset.mem_range]
    constructor
    · rintro ⟨⟨hak, hkb⟩, hmod⟩
      obtain ⟨j, hj⟩ : s ∣ (k - a) := Int.dvd_of_emod_eq_zero hmod
      have hj0 : 0 ≤ j := by nlinarith
      have hk : k = a + j * s := by linarith [hj]
      have hjlt : j < rangeLen a b s :=
        (lt_rangeLen_iff hs hj0).mpr (by omega)
      refine ⟨j.toNat, by omega, ?_⟩
      rw [Int.toNat_of_nonneg hj0]
      omega
    · rintro ⟨j, hjn, rfl⟩
      have hjlt : (j : ℤ) < rangeLen a b s := by omega
      have hjs : (0 : ℤ) ≤ (j : ℤ) * s := by positivity
      refine ⟨⟨by omega, (lt_rangeLen_iff hs (by positivity)).mp hjlt⟩, ?_⟩
      have hsub : a + (j : ℤ) * s - a = (j : ℤ) * s := by ring
      rw [hsub, Int.mul_emod_left]
  have hinj : Function.Injective (fun j : ℕ => a + (j : ℤ) * s) := by
    intro j1 j2 h
    simp only at h
    have hss : (j1 : ℤ) * s = (j2 : ℤ) * s := by linarith
    have := mul_right_cancel₀ (ne_of_gt hs) hss
    exact_mod_cast this
  rw [steppedCount, himg, Finset.card_image_of_injective _ hinj,
    Finset.card_range, Int.toNat_of_nonneg (rangeLen_nonneg a b s)]

lemma rangeLen_mono {s : ℤ} (hs : 0 < s) (a : ℤ) {b1 b2 : ℤ}
    (h : b1 ≤ b2) : rangeLen a b1 s ≤ rangeLen a b2 s :=
  max_le_max le_rfl (Int.ediv_le_ediv hs (by omega))

lemma polyval_linear (c x : ℚ) : polyval [c, 0] x = c * x := by
  simp [polyval]

/-- C6: for every `step_size ≤ 0` — in particular `step_size = 0` — and
regardless of every other parameter, constructing the detector raises
the `ConfigurationError` of the `step_size` validation, before any
discord search begins. -/
theorem init_step_size_nonpositive_configuration_error
    (min_length max_length step_size : ℤ) (split_psn : Option ℤ)
    (h : step_size ≤ 0) :
    MADRID.init min_length max_length step_size split_psn =
      Except.error MadridError.stepSizeConfigurationError := by
  unfold MADRID.init
  rw [if_pos h]

theorem init_step_size_nonpositive_configuration_error_witness :
    MADRID.init 30 70 0 (some 100) =
      Except.error MadridError.stepSizeConfigurationError :=
  init_step_size_nonpositive_configuration_error 30 70 0 (some 100)
    (by norm_num)

/-- C8: when `split_psn` is unset (`None`), the constructed detector's
`split_psn` defaults to `max_length + 1`. -/
theorem init_split_psn_defaults_to_max_length_succ
    (min_length max_length step_size : ℤ) (h : 0 < step_size) :
    MADRID.init min_length max_length step_size none =
      Except.ok ⟨min_length, max_length, step_size, max_length + 1⟩ := by
  unfold MADRID.init
  rw [if_neg (by omega)]

/-- C8 witness: the spec's scenario `min_length=50, max_length=50,
step_size=1, split_psn=None` yields `split_psn = 51` internally. -/
theorem init_split_psn_defaults_to_max_length_succ_witness :
    MADRID.init 50 50 1 none = Except.ok ⟨50, 50, 1, 51⟩ := by
  have h := init_split_psn_defaults_to_max_length_succ 50 50 1 (by norm_num)
  norm_num at h
  exact h

/-- C10: an explicit falsy `split_psn` (the integer `0`) is silently
replaced by the default `max_length + 1`, exactly as if it were unset,
while any truthy (nonzero) `split_psn` is kept as given. -/
theorem init_split_psn_truthiness
    (min_length max_length step_size s : ℤ) (h : 0 < step_size) :
    MADRID.init min_length max_length step_size (some 0) =
      Except.ok ⟨min_length, max_length, step_size, max_length + 1⟩ ∧
    (s ≠ 0 →
      MADRID.init min_length max_length step_size (some s) =
        Except.ok ⟨min_length, max_length, step_size, s⟩) := by
  constructor
  · unfold MADRID.init
    rw [if_neg (by omega)]
    simp
  · intro hs
    unfold MADRID.init
    rw [if_neg (by omega)]
    simp [hs]

/-- C5: the estimator's problem size at factor `f` is the count of
integers in `[1, len_x - split_psn)` stepped by `f` times the count of
integers in `[ceil(min_length / f), ceil(max_length / f))` stepped by
`step_size`; the degree-6 polynomial coefficient sets (7 coefficients)
are used for factors 1 and 2 exactly when the factor-1 problem size is
strictly below `5000000`, and the linear sets (2 coefficients)
otherwise, while factors 4, 8 and 16 always use their fixed linear
models. -/
theorem estimate_problem_size_and_regime (d : MADRID) (len_x f : ℤ)
    (hf : 0 < f) (hstep : 0 < d.step_size) :
    MADRID.problemSize d len_x f =
        (steppedCount 1 (len_x - d.split_psn) f : ℤ) *
          (steppedCount (ceilDiv d.min_length f) (ceilDiv d.max_length f)
            d.step_size : ℤ) ∧
    (MADRID._estimate_processing_time d len_x).predicted_execution_time_1 =
        polyval
          (if MADRID.problemSize d len_x 1 < 5000000 then p_1_poly
           else p_1_lin)
          ((MADRID.problemSize d len_x 1 : ℤ) : ℚ) ∧
    (MADRID._estimate_processing_time d len_x).predicted_execution_time_2 =
        polyval
          (if MADRID.problemSize d len_x 1 < 5000000 then p_2_poly
           else p_2_lin)
          ((MADRID.problemSize d len_x 2 : ℤ) : ℚ) ∧
    (MADRID._estimate_processing_time d len_x).predicted_execution_time_4 =
        polyval p_4 ((MADRID.problemSize d len_x 4 : ℤ) : ℚ) ∧
    (MADRID._estimate_processing_time d len_x).predicted_execution_time_8 =
        polyval p_8 ((MADRID.problemSize d len_x 8 : ℤ) : ℚ) ∧
    (MADRID._estimate_processing_time d len_x).predicted_execution_time_16 =
        polyval p_16 ((MADRID.problemSize d len_x 16 : ℤ) : ℚ) ∧
    p_1_poly.length = 7 ∧ p_2_poly.length = 7 ∧ p_1_lin.length = 2 ∧
    p_2_lin.length = 2 ∧ p_4.length = 2 ∧ p_8.length = 2 ∧
    p_16.length = 2 := by
  refine ⟨?_, rfl, rfl, rfl, rfl, rfl, rfl, rfl, rfl, rfl, rfl, rfl, rfl⟩
  rw [MADRID.problemSize, steppedCount_eq_rangeLen 1 (len_x - d.split_psn) hf,
    steppedCount_eq_rangeLen (ceilDiv d.min_length f) (ceilDiv d.max_length f)
      hstep]

theorem estimate_problem_size_and_regime_witness :
    MADRID.problemSize ⟨100, 200, 1, 201⟩ 1000 2 =
        (steppedCount 1 (1000 - 201) 2 : ℤ) *
          (steppedCount (ceilDiv 100 2) (ceilDiv 200 2) 1 : ℤ) ∧
    (MADRID._estimate_processing_time ⟨100, 200, 1, 201⟩
          1000).predicted_execution_time_1 =
        polyval
          (if MADRID.problemSize ⟨100, 200, 1, 201⟩ 1000 1 < 5000000 then
            p_1_poly
           else p_1_lin)
          ((MADRID.problemSize ⟨100, 200, 1, 201⟩ 1000 1 : ℤ) : ℚ) ∧
    (MADRID._estimate_processing_time ⟨100, 200, 1, 201⟩
          1000).predicted_execution_time_2 =
        polyval
          (if MADRID.problemSize ⟨100, 200, 1, 201⟩ 1000 1 < 5000000 then
            p_2_poly
           else p_2_lin)
          ((MADRID.problemSize ⟨100, 200, 1, 201⟩ 1000 2 : ℤ) : ℚ) ∧
    (MADRID._estimate_processing_time ⟨100, 200, 1, 201⟩
          1000).predicted_execution_time_4 =
        polyval p_4
          ((MADRID.problemSize ⟨100, 200, 1, 201⟩ 1000 4 : ℤ) : ℚ) ∧
    (MADRID._estimate_processing_time ⟨100, 200, 1, 201⟩
          1000).predicted_execution_time_8 =
        polyval p_8
          ((MADRID.problemSize ⟨100, 200, 1, 201⟩ 1000 8 : ℤ) : ℚ) ∧
    (MADRID._estimate_processing_time ⟨100, 200, 1, 201⟩
          1000).predicted_execution_time_16 =
        polyval p_16
          ((MADRID.problemSize ⟨100, 200, 1, 201⟩ 1000 16 : ℤ) : ℚ) ∧
    p_1_poly.length = 7 ∧ p_2_poly.length = 7 ∧ p_1_lin.length = 2 ∧
    p_2_lin.length = 2 ∧ p_4.length = 2 ∧ p_8.length = 2 ∧
    p_16.length = 2 :=
  estimate_problem_size_and_regime ⟨100, 200, 1, 201⟩ 1000 2 (by norm_num)
    (by norm_num)

/-- A short alternating series: no two consecutive values are equal
(maximal constant run 1) and the variance is `1/4 ≥ 0.2`, so it passes
every input guard for `min_length = 2`. -/
def X4 : List ℚ := [0, 1, 0, 1]

/-- An alternating series of length 20: maximal constant run 1 and
variance `1/4 ≥ 0.2`, so it passes every input guard for
`min_length = 20`. -/
def X20 : List ℚ :=
  [0, 1, 0, 1, 0, 1, 0, 1, 0, 1, 0, 1, 0, 1, 0, 1, 0, 1, 0, 1]

lemma X4_length : X4.length = 4 := rfl

lemma X20_length : X20.length = 20 := rfl

lemma npDiff_X4 : npDiff X4 = [1, -1, 1] := by
  norm_num [npDiff, X4, List.zipWith]

lemma npDiff_X20 :
    npDiff X20 = [1, -1, 1, -1, 1, -1, 1, -1, 1, -1, 1, -1, 1, -1, 1,
      -1, 1, -1, 1] := by
  norm_num [npDiff, X20, List.zipWith]

lemma constant_length_X4 : constant_length X4 = 1 := by
  rw [constant_length, constant_lengths, constant_indices,
    constantChangePoints, npDiff_X4, X4_length]
  decide

lemma constant_length_X20 : constant_length X20 = 1 := by
  rw [constant_length, constant_lengths, constant_indices,
    constantChangePoints, npDiff_X20, X20_length]
  decide

lemma npVar_X4 : npVar X4 = 1 / 4 := by
  norm_num [npVar, npMean, X4]

lemma npVar_X20 : npVar X20 = 1 / 4 := by
  norm_num [npVar, npMean, X20]

lemma contains_X4 : MADRID._contains_constant_regions X4 2 = false := by
  rw [MADRID._contains_constant_regions, constant_length_X4, npVar_X4]
  norm_num

lemma contains_X20 :
    MADRID._contains_constant_regions X20 20 = false := by
  rw [MADRID._contains_constant_regions, constant_length_X20, npVar_X20]
  norm_num

lemma m_set_245 : MADRID.m_set ⟨2, 4, 1, 5⟩ = [2, 3, 4] := by decide

lemma m_pointer_245 : MADRID.m_pointer ⟨2, 4, 1, 5⟩ = 2 := by decide

lemma num_rows_245 : MADRID.num_rows ⟨2, 4, 1, 5⟩ = 3 := by decide

lemma m_set_single : MADRID.m_set ⟨20, 20, 1, 21⟩ = [20] := by decide

lemma m_pointer_single : MADRID.m_pointer ⟨20, 20, 1, 21⟩ = 1 := by decide

lemma num_rows_single : MADRID.num_rows ⟨20, 20, 1, 21⟩ = 1 := by decide

/-- C1: on a valid configuration (`min_length = 2`, `max_length = 4`,
`step_size = 1`, defaulted `split_psn = 5`) and a series that passes
every input guard, `_predict` falls off the end of its body and returns
Python `None` (modelled `Except.ok none`) — not an anomaly indicator
aligned to series positions, contradicting its own `-> np.ndarray`
annotation (the anomaly-array construction is commented out in the
source). -/
theorem predict_returns_none_for_valid_input :
    MADRID.init 2 4 1 none = Except.ok ⟨2, 4, 1, 5⟩ ∧
    MADRID._predict ⟨2, 4, 1, 5⟩ X4 none false = Except.ok none := by
  constructor
  · rfl
  · norm_num [MADRID._predict, contains_X4, X4_length, factorTruthy,
      num_rows_245, m_set_245, m_pointer_245]

/-- C2: in the single-length case `min_length = max_length = 20` the
Length Set `m_set` has one element, yet `m_pointer = ceil(1 / 2) = 1`,
which is out of bounds for 0-based indexing, so `m_set[m_pointer]`
raises an `IndexError` on a series that passes every guard (the
`ceil(n / 2)` pivot formula is only a valid middle index under the
1-based indexing of the MATLAB original). -/
theorem single_length_m_pointer_out_of_bounds :
    (MADRID.m_set ⟨20, 20, 1, 21⟩).length = 1 ∧
    MADRID.m_pointer ⟨20, 20, 1, 21⟩ = 1 ∧
    ¬ MADRID.m_pointer ⟨20, 20, 1, 21⟩ <
        (MADRID.m_set ⟨20, 20, 1, 21⟩).length ∧
    MADRID._predict ⟨20, 20, 1, 21⟩ X20 none false =
      Except.error MadridError.indexErrorMSet := by
  refine ⟨by decide, by decide, by decide, ?_⟩
  norm_num [MADRID._predict, contains_X20, X20_length, factorTruthy,
    num_rows_single, m_set_single, m_pointer_single]

/-- C3: on a valid series, calling `_predict` with `estimate_time=True`
and `factor` unset reaches `self._estimate_processing_time(self, len_x)`,
which passes `self` to the bound method a second time and therefore
raises a `TypeError` instead of running the estimator; no estimates are
reported (even its body only binds locals and returns `None`). -/
theorem predict_estimate_time_raises_type_error :
    MADRID._predict ⟨2, 4, 1, 5⟩ X4 none true =
      Except.error MadridError.typeErrorEstimateCall := by
  norm_num [MADRID._predict, contains_X4, X4_length, factorTruthy]

/-- C9 counterexample: with `min_length = 100`, `max_length = 200`,
`step_size = 1`, `split_psn = 201` fixed, growing the series from
`N = 30202` (factor-1 problem size `3000000`) to `N = 35202` (problem
size `3500000`) keeps the estimator in the polynomial regime, where the
degree-6 fit is decreasing: the factor-1 predicted time drops from
about `117.67` to about `115.00` seconds. -/
theorem estimate_time_not_monotone_in_series_length :
    (30202 : ℤ) < 35202 ∧
    (MADRID._estimate_processing_time ⟨100, 200, 1, 201⟩
        35202).predicted_execution_time_1 <
      (MADRID._estimate_processing_time ⟨100, 200, 1, 201⟩
        30202).predicted_execution_time_1 := by
  constructor
  · norm_num
  · show polyval
        (if MADRID.problemSize ⟨100, 200, 1, 201⟩ 35202 1 < 5000000 then
          p_1_poly
         else p_1_lin)
        ((MADRID.problemSize ⟨100, 200, 1, 201⟩ 35202 1 : ℤ) : ℚ) <
      polyval
        (if MADRID.problemSize ⟨100, 200, 1, 201⟩ 30202 1 < 5000000 then
          p_1_poly
         else p_1_lin)
        ((MADRID.problemSize ⟨100, 200, 1, 201⟩ 30202 1 : ℤ) : ℚ)
    have h1 : MADRID.problemSize ⟨100, 200, 1, 201⟩ 35202 1 = 3500000 := by
      norm_num [MADRID.problemSize, rangeLen, ceilDiv, max_def]
    have h2 : MADRID.problemSize ⟨100, 200, 1, 201⟩ 30202 1 = 3000000 := by
      norm_num [MADRID.problemSize, rangeLen, ceilDiv, max_def]
    rw [h1, h2]
    norm_num [polyval, p_1_poly]

/-- C9 amended: for the factors with fixed linear cost models — 4, 8 and
16 — the predicted execution time never decreases as the series length
grows, every other parameter held fixed (for factors 1 and 2 this fails
inside the polynomial regime, see the counterexample). -/
theorem estimate_time_monotone_factors_4_8_16 (d : MADRID) (n1 n2 : ℤ)
    (h : n1 ≤ n2) :
    (MADRID._estimate_processing_time d
        n1).predicted_execution_time_4 ≤
      (MADRID._estimate_processing_time d
        n2).predicted_execution_time_4 ∧
    (MADRID._estimate_processing_time d
        n1).predicted_execution_time_8 ≤
      (MADRID._estimate_processing_time d
        n2).predicted_execution_time_8 ∧
    (MADRID._estimate_processing_time d
        n1).predicted_execution_time_16 ≤
      (MADRID._estimate_processing_time d
        n2).predicted_execution_time_16 := by
  have hsize : ∀ f : ℤ, 0 < f →
      ((MADRID.problemSize d n1 f : ℤ) : ℚ) ≤
        ((MADRID.problemSize d n2 f : ℤ) : ℚ) := by
    intro f hf
    have := mul_le_mul_of_nonneg_right
      (rangeLen_mono hf 1 (by omega : n1 - d.split_psn ≤ n2 - d.split_psn))
      (rangeLen_nonneg (ceilDiv d.min_length f) (ceilDiv d.max_length f)
        d.step_size)
    exact_mod_cast this
  refine ⟨?_, ?_, ?_⟩
  · show polyval p_4 ((MADRID.problemSize d n1 4 : ℤ) : ℚ) ≤
      polyval p_4 ((MADRID.problemSize d n2 4 : ℤ) : ℚ)
    rw [p_4, polyval_linear, polyval_linear]
    exact mul_le_mul_of_nonneg_left (hsize 4 (by norm_num)) (by norm_num)
  · show polyval p_8 ((MADRID.problemSize d n1 8 : ℤ) : ℚ) ≤
      polyval p_8 ((MADRID.problemSize d n2 8 : ℤ) : ℚ)
    rw [p_8, polyval_linear, polyval_linear]
    exact mul_le_mul_of_nonneg_left (hsize 8 (by norm_num)) (by norm_num)
  · show polyval p_16 ((MADRID.problemSize d n1 16 : ℤ) : ℚ) ≤
      polyval p_16 ((MADRID.problemSize d n2 16 : ℤ) : ℚ)
    rw [p_16, polyval_linear, polyval_linear]
    exact mul_le_mul_of_nonneg_left (hsize 16 (by norm_num)) (by norm_num)

theorem estimate_time_monotone_factors_4_8_16_witness :
    (MADRID._estimate_processing_time ⟨100, 200, 1, 201⟩
        1000).predicted_execution_time_4 ≤
      (MADRID._estimate_processing_time ⟨100, 200, 1, 201⟩
        2000).predicted_execution_time_4 ∧
    (MADRID._estimate_processing_time ⟨100, 200, 1, 201⟩
        1000).predicted_execution_time_8 ≤
      (MADRID._estimate_processing_time ⟨100, 200, 1, 201⟩
        2000).predicted_execution_time_8 ∧
    (MADRID._estimate_processing_time ⟨100, 200, 1, 201⟩
        1000).predicted_execution_time_16 ≤
      (MADRID._estimate_processing_time ⟨100, 200, 1, 201⟩
        2000).predicted_execution_time_16 :=
  estimate_time_monotone_factors_4_8_16 ⟨100, 200, 1, 201⟩ 1000 2000
    (by norm_num)

/-- C7: for every series shorter than `min_length`, detection fails with
the `DataTooShortError` guard, before any discord search begins and
before any discord table could be produced. -/
theorem predict_data_too_short (d : MADRID) (X : List ℚ)
    (h : (X.length : ℤ) < d.min_length) :
    MADRID._predict d X none false =
      Except.error MadridError.dataTooShortError := by
  unfold MADRID._predict
  rw [if_neg (by simp), if_pos h]

/-- C7 witness: a series of length `min_length - 1` (here `2 = 3 - 1`)
is rejected. -/
theorem predict_data_too_short_witness :
    MADRID._predict ⟨3, 4, 1, 5⟩ [0, 1] none false =
      Except.error MadridError.dataTooShortError :=
  predict_data_too_short ⟨3, 4, 1, 5⟩ [0, 1] (by norm_num)

/-- C4: for every series at least `min_length` long (and positive
`min_length`), detection fails with the `DegenerateRegionError` guard
exactly when the maximal run of unchanged consecutive values — computed
from the change-point positions, the series boundaries acting as
implicit change points — is at least `min_length`, or the variance of
the series is below `0.2`. -/
theorem predict_degenerate_region_iff (d : MADRID) (X : List ℚ)
    (hlen : d.min_length ≤ (X.length : ℤ)) :
    MADRID._predict d X none false =
        Except.error MadridError.degenerateRegionError ↔
      (d.min_length ≤ (constant_length X : ℤ) ∨ npVar X < 1 / 5) := by
  unfold MADRID._predict
  rw [if_neg (by simp), if_neg (by omega)]
  by_cases hc : MADRID._contains_constant_regions X d.min_length = true
  · rw [if_pos hc]
    simp only [MADRID._contains_constant_regions, Bool.or_eq_true,
      decide_eq_true_eq, ge_iff_le] at hc
    simpa using hc
  · rw [if_neg hc, if_neg (by simp)]
    simp only [MADRID._contains_constant_regions, Bool.or_eq_true,
      decide_eq_true_eq, ge_iff_le, not_or] at hc
    constructor
    · intro h
      split_ifs at h <;> simp_all
    · intro h
      rcases h with h | h
      · exact absurd h hc.1
      · exact absurd h hc.2

/-- C4 witness: `[0, 0, 1]` with `min_length = 2` has a constant run of
length `2 ≥ 2`, so the guard fires. -/
theorem predict_degenerate_region_iff_witness :
    MADRID._predict ⟨2, 4, 1, 5⟩ [0, 0, 1] none false =
        Except.error MadridError.degenerateRegionError ↔
      ((2 : ℤ) ≤ (constant_length [0, 0, 1] : ℤ) ∨
        npVar [0, 0, 1] < 1 / 5) :=
  predict_degenerate_region_iff ⟨2, 4, 1, 5⟩ [0, 0, 1] (by norm_num)

theorem init_split_psn_truthiness_witness :
    MADRID.init 50 50 1 (some 0) = Except.ok ⟨50, 50, 1, 51⟩ ∧
    ((7 : ℤ) ≠ 0 →
      MADRID.init 50 50 1 (some 7) = Except.ok ⟨50, 50, 1, 7⟩) := by
  have h := init_split_psn_truthiness 50 50 1 7 (by norm_num)
  norm_num at h ⊢
  exact h

end Aeon
